import Mathlib

/-!
Shallow embedding of the housing-pipeline backend (Flask + SQLAlchemy) used to
check the natural-language specification against the code.

Conventions of the embedding:
* SQLAlchemy `Float` columns are modelled as `ℚ` (the spec's claims are
  arithmetic identities, not float-rounding facts); nullable columns as
  `Option _`.
* A database table is a `List` of records; an endpoint handler becomes a pure
  function from the relevant records (and request data) to its response and,
  for writes, the post-state.
* Python truthiness on a nullable value (`if x:`) is modelled explicitly:
  `none` is falsy, and `some v` is falsy exactly when `v` is `0` / the empty
  string / the empty list.
-/

namespace Housing

/-- `ProjectPhase` enum from `src/models/database.py`. -/
inductive ProjectPhase where
  | preDevelopment
  | applicationFinancing
  | construction
  | leaseUpCompliance
deriving DecidableEq, Repr

/-- `FundingSourceType` enum from `src/models/database.py`. -/
inductive FundingSourceType where
  | LIHTC_9_PERCENT
  | LIHTC_4_PERCENT
  | FHLB_AHP
  | ORCA
  | HOME
  | PDLP
  | CONGRESSIONAL_CIP
deriving DecidableEq, Repr

/-- `ApplicationStatus` enum from `src/models/database.py`. -/
inductive ApplicationStatus where
  | draft
  | submitted
  | underReview
  | approved
  | denied
  | withdrawn
deriving DecidableEq, Repr

/-- `FundingSource` model (`src/models/database.py`), fields used by the logic
under verification. -/
structure FundingSource where
  id : Nat
  name : String
  type : FundingSourceType
  agency : Option String
  award_amount_min : Option ℚ
  award_amount_max : Option ℚ
  is_active : Bool
deriving DecidableEq, Repr

/-- `Application` model (`src/models/database.py`). -/
structure Application where
  id : Nat
  project_id : Nat
  funding_source_id : Nat
  status : ApplicationStatus
  requested_amount : Option ℚ
  awarded_amount : Option ℚ
deriving DecidableEq, Repr

/-- `Project` model (`src/models/database.py`); `applications` embeds the
SQLAlchemy relationship (the project's applications). -/
structure Project where
  id : Nat
  name : String
  project_type : Option String
  population_type : Option String
  total_units : Option Int
  total_cost : Option ℚ
  sharepoint_site_url : Option String
  sharepoint_email : Option String
  sharepoint_group_id : Option String
  applications : List Application
deriving DecidableEq, Repr

/-- Python truthiness of a nullable string (`if x:`): `None` and `""` are
falsy. -/
def truthyStr : Option String → Bool
  | none => false
  | some s => !s.isEmpty

/-- Python truthiness of a nullable number (`if x:`): `None` and `0` are
falsy. -/
def truthyNum : Option ℚ → Bool
  | none => false
  | some q => q != 0

/-- Python truthiness of a nullable integer (`if x:`). -/
def truthyInt : Option Int → Bool
  | none => false
  | some n => n != 0

/-- `app.awarded_amount or 0` as used in the aggregation code. -/
def appAwarded (a : Application) : ℚ := a.awarded_amount.getD 0

/-- `app.requested_amount or 0`. -/
def appRequested (a : Application) : ℚ := a.requested_amount.getD 0

/-- `total_awarded = sum([app.awarded_amount or 0 for app in project.applications])`
(`src/routes/projects.py` line 26, line 75). -/
def total_awarded (p : Project) : ℚ := (p.applications.map appAwarded).sum

/-- `total_requested = sum([app.requested_amount or 0 for app in project.applications])`
(`src/routes/projects.py` line 76). -/
def total_requested (p : Project) : ℚ := (p.applications.map appRequested).sum

/-- `funding_gap = (project.total_cost or 0) - total_awarded` as computed by the
project-list endpoint `get_projects` (`src/routes/projects.py` lines 26-27).
`total_cost or 0` maps `None` to `0` and leaves every number unchanged
(`0.0 or 0` is `0`). -/
def get_projects_funding_gap (p : Project) : ℚ :=
  p.total_cost.getD 0 - total_awarded p

/-- The same computation in the project-detail endpoint `get_project`
(`src/routes/projects.py` lines 75-77). -/
def get_project_funding_gap (p : Project) : ℚ :=
  p.total_cost.getD 0 - total_awarded p

/-- `total_cost = sum([p.total_cost or 0 for p in all_projects])` in
`get_dashboard_stats` (`src/routes/projects.py` line 273). -/
def dashboard_total_cost (ps : List Project) : ℚ :=
  (ps.map fun p => p.total_cost.getD 0).sum

/-- `total_secured` accumulated per project in `get_dashboard_stats`
(`src/routes/projects.py` lines 274-278). -/
def dashboard_total_secured (ps : List Project) : ℚ :=
  (ps.map total_awarded).sum

/-- `total_gap = total_cost - total_secured` in `get_dashboard_stats`
(`src/routes/projects.py` line 281). -/
def dashboard_total_gap (ps : List Project) : ℚ :=
  dashboard_total_cost ps - dashboard_total_secured ps

/-! ### Application dashboard statistics (`src/routes/applications.py`) -/

/-- `approved_applications` count in `get_application_stats`
(`src/routes/applications.py` lines 263-265). -/
def approved_applications (apps : List Application) : Nat :=
  (apps.filter fun a => a.status = ApplicationStatus.approved).length

/-- `total_applications = Application.query.count()`
(`src/routes/applications.py` line 262). -/
def total_applications_count (apps : List Application) : Nat := apps.length

/-- `success_rate = (approved_applications / total_applications * 100) if
total_applications > 0 else 0` (`src/routes/applications.py` line 267). -/
def success_rate (apps : List Application) : ℚ :=
  if 0 < total_applications_count apps then
    (approved_applications apps : ℚ) / (total_applications_count apps : ℚ) * 100
  else 0

/-! ### Time tracking (`src/routes/time_tracking.py`) -/

/-- `TimeEntry` model (`src/models/database.py`); the date is kept as its
`YYYY-MM-DD` request string, which none of the verified claims interpret. -/
structure TimeEntry where
  id : Nat
  project_id : Option Nat
  user_name : String
  description : String
  hours : ℚ
  hourly_rate : ℚ
  date : String
  is_billable : Bool
  is_invoiced : Bool
deriving DecidableEq, Repr

/-- Per-entry `total_amount = entry.hours * entry.hourly_rate`, recomputed on
every read (`src/routes/time_tracking.py` line 39 and elsewhere). -/
def entry_amount (e : TimeEntry) : ℚ := e.hours * e.hourly_rate

/-- `total_hours = sum([entry.hours for entry in time_entries])`
(`src/routes/time_tracking.py` line 247). -/
def total_hours (entries : List TimeEntry) : ℚ :=
  (entries.map TimeEntry.hours).sum

/-- `total_billable_hours` (`src/routes/time_tracking.py` line 248). -/
def total_billable_hours (entries : List TimeEntry) : ℚ :=
  ((entries.filter fun e => e.is_billable).map TimeEntry.hours).sum

/-- `total_amount = sum([... for entry in time_entries if entry.is_billable])`
(`src/routes/time_tracking.py` line 249). -/
def total_billable_amount (entries : List TimeEntry) : ℚ :=
  ((entries.filter fun e => e.is_billable).map entry_amount).sum

/-- `total_invoiced_amount = sum([entry.hours * entry.hourly_rate for entry in
time_entries if entry.is_invoiced])` (`src/routes/time_tracking.py` line 250).
Note the guard is `entry.is_invoiced` alone. -/
def total_invoiced_amount (entries : List TimeEntry) : ℚ :=
  ((entries.filter fun e => e.is_invoiced).map entry_amount).sum

/-- `total_unbilled_amount` over `is_billable and not is_invoiced`
(`src/routes/time_tracking.py` line 251). -/
def total_unbilled_amount (entries : List TimeEntry) : ℚ :=
  ((entries.filter fun e => e.is_billable && !e.is_invoiced).map entry_amount).sum

/-- Response of a write endpoint: either an error envelope with its HTTP code,
or a created/updated entry. -/
inductive WriteResult where
  | failure (error : String) (code : Nat)
  | created (entry : TimeEntry)
deriving DecidableEq, Repr

/-- JSON body of `POST /api/time-tracking/` (`create_time_entry`); each field
is `none` when the key is absent.  The `hours` and `hourly_rate` values arrive
as JSON numbers. -/
structure CreateTimeEntryRequest where
  project_id : Option Nat
  user_name : Option String
  description : Option String
  hours : Option ℚ
  hourly_rate : Option ℚ
  date : Option String
  is_billable : Option Bool
  is_invoiced : Option Bool
deriving DecidableEq, Repr

/-- Python truthiness of an optional id (`if data.get('project_id'):`). -/
def truthyId : Option Nat → Bool
  | none => false
  | some n => n != 0

/-- `create_time_entry` (`src/routes/time_tracking.py` lines 70-137):
required-field guards are Python truthiness checks (`if not data.get(...)`),
then an existence check for a truthy `project_id`, then the entry is built with
defaults `hourly_rate = 125.0`, `is_billable = True`, `is_invoiced = False`.
`project_ids` is the set of existing project ids; `next_id` the id the store
assigns. -/
def create_time_entry (project_ids : List Nat) (next_id : Nat)
    (data : CreateTimeEntryRequest) : WriteResult :=
  if !truthyStr data.user_name then .failure "User name is required" 400
  else if !truthyStr data.description then .failure "Description is required" 400
  else if !truthyNum data.hours then .failure "Hours is required" 400
  else if !truthyStr data.date then .failure "Date is required" 400
  else if truthyId data.project_id && !(project_ids.contains (data.project_id.getD 0)) then
    .failure "Project not found" 404
  else
    .created
      { id := next_id
        project_id := data.project_id
        user_name := data.user_name.getD ""
        description := data.description.getD ""
        hours := data.hours.getD 0
        hourly_rate := data.hourly_rate.getD 125
        date := data.date.getD ""
        is_billable := data.is_billable.getD true
        is_invoiced := data.is_invoiced.getD false }

/-- JSON body of `PUT /api/time-tracking/<id>` (`update_time_entry`); a field
is `none` when its key is absent (`'field' in data` is false).  `project_id`
distinguishes key-absent (`none`), key-present-falsy (`some none`, clears the
link) and key-present-truthy (`some (some pid)`). -/
structure UpdateTimeEntryRequest where
  project_id : Option (Option Nat)
  user_name : Option String
  description : Option String
  hours : Option ℚ
  hourly_rate : Option ℚ
  date : Option String
  is_billable : Option Bool
  is_invoiced : Option Bool
deriving DecidableEq, Repr

/-- The field updates of `update_time_entry` (`src/routes/time_tracking.py`
lines 153-179) applied to one entry: every present field is copied in with no
validation (in particular `hours` at lines 170-171). -/
def apply_update (data : UpdateTimeEntryRequest) (e : TimeEntry) : TimeEntry :=
  { e with
    project_id := match data.project_id with
      | none => e.project_id
      | some v => if truthyId v then v else none
    user_name := data.user_name.getD e.user_name
    description := data.description.getD e.description
    hours := data.hours.getD e.hours
    hourly_rate := data.hourly_rate.getD e.hourly_rate
    date := data.date.getD e.date
    is_billable := data.is_billable.getD e.is_billable
    is_invoiced := data.is_invoiced.getD e.is_invoiced }

/-- `update_time_entry` (`src/routes/time_tracking.py` lines 146-199): 404 when
the entry does not exist, 404 when a truthy `project_id` is given but no such
project exists, otherwise the updates are applied unconditionally. -/
def update_time_entry (db : List TimeEntry) (project_ids : List Nat)
    (entry_id : Nat) (data : UpdateTimeEntryRequest) : WriteResult :=
  match db.find? fun e => e.id = entry_id with
  | none => .failure "Not Found" 404
  | some e =>
    match data.project_id with
    | some (some pid) =>
      if pid != 0 && !(project_ids.contains pid) then .failure "Project not found" 404
      else .created (apply_update data e)
    | _ => .created (apply_update data e)

/-- Response and post-state of `POST /api/time-tracking/mark-invoiced`. -/
inductive MarkInvoicedResult where
  | failure (error : String) (code : Nat)
  | ok (updated_count : Nat)
deriving DecidableEq, Repr

/-- The single-statement bulk update `TimeEntry.query.filter(TimeEntry.id.in_(
entry_ids)).update({TimeEntry.is_invoiced: True})` applied to one row. -/
def set_invoiced (entry_ids : List Nat) (e : TimeEntry) : TimeEntry :=
  if e.id ∈ entry_ids then { e with is_invoiced := true } else e

/-- `mark_entries_invoiced` (`src/routes/time_tracking.py` lines 359-387):
`entry_ids = data.get('entry_ids', [])`; an absent key and an empty list both
reach the `if not entry_ids` guard as `[]`.  Otherwise all matched rows are
updated in one statement and the matched-row count is returned. -/
def mark_entries_invoiced (db : List TimeEntry) (entry_ids : List Nat) :
    MarkInvoicedResult × List TimeEntry :=
  if entry_ids.isEmpty then
    (.failure "Entry IDs are required" 400, db)
  else
    ((.ok (db.filter fun e => e.id ∈ entry_ids).length),
      db.map (set_invoiced entry_ids))

/-! ### Funding recommendations (`src/routes/ai_chat.py`, `get_funding_recommendations`) -/

/-- Condition of the unit-count rule (`src/routes/ai_chat.py` line 218):
`source.type.value == 'LIHTC 9%' and project.total_units and
project.total_units >= 20` (the middle conjunct is Python truthiness). -/
def rule_unit_count (p : Project) (s : FundingSource) : Bool :=
  s.type = FundingSourceType.LIHTC_9_PERCENT && truthyInt p.total_units &&
    (match p.total_units with | none => false | some u => 20 ≤ u)

/-- Condition of the population rule (`src/routes/ai_chat.py` line 222):
`source.type.value == 'FHLB AHP' and project.population_type == 'Family'`. -/
def rule_population (p : Project) (s : FundingSource) : Bool :=
  s.type = FundingSourceType.FHLB_AHP && p.population_type = some "Family"

/-- Condition of the construction rule (`src/routes/ai_chat.py` line 226):
`source.type.value == 'HOME' and project.project_type in ['New Construction',
'Rehabilitation']`. -/
def rule_construction (p : Project) (s : FundingSource) : Bool :=
  s.type = FundingSourceType.HOME &&
    (p.project_type = some "New Construction" ||
      p.project_type = some "Rehabilitation")

/-- Condition of the award-amount rule (`src/routes/ai_chat.py` lines 231-233):
`if source.award_amount_min and source.award_amount_max:` (Python truthiness)
and then `source.award_amount_min <= funding_gap <= source.award_amount_max`
where `funding_gap` is recomputed as in the project endpoints (line 232). -/
def rule_amount (p : Project) (s : FundingSource) : Bool :=
  truthyNum s.award_amount_min && truthyNum s.award_amount_max &&
    decide (s.award_amount_min.getD 0 ≤ get_projects_funding_gap p) &&
    decide (get_projects_funding_gap p ≤ s.award_amount_max.getD 0)

/-- The sequential `match_score += ...` accumulation of
`get_funding_recommendations` (`src/routes/ai_chat.py` lines 214-234). -/
def match_score (p : Project) (s : FundingSource) : Nat :=
  (if rule_unit_count p s then 30 else 0) +
    (if rule_population p s then 25 else 0) +
    (if rule_construction p s then 20 else 0) +
    (if rule_amount p s then 25 else 0)

/-- The rule table as the spec states it: a list of independently applied
rules whose scores are added. -/
def rule_scores (p : Project) (s : FundingSource) : List Nat :=
  [if rule_unit_count p s then 30 else 0,
    if rule_population p s then 25 else 0,
    if rule_construction p s then 20 else 0,
    if rule_amount p s then 25 else 0]

/-- One recommendation record (`src/routes/ai_chat.py` lines 238-249); the
human-readable reasons carry no information beyond the fired rules and are
omitted. -/
structure Recommendation where
  source : FundingSource
  match_score : Nat
deriving DecidableEq, Repr

/-- `applied_source_ids = [app.funding_source_id for app in project.applications]`
(`src/routes/ai_chat.py` line 207). -/
def applied_source_ids (p : Project) : List Nat :=
  p.applications.map Application.funding_source_id

/-- `available_sources` (`src/routes/ai_chat.py` lines 204-208): the active
sources (`FundingSource.query.filter(FundingSource.is_active == True)`) whose
id is not among the project's applied source ids. -/
def available_sources (p : Project) (all_sources : List FundingSource) :
    List FundingSource :=
  (all_sources.filter FundingSource.is_active).filter
    fun s => !(applied_source_ids p).contains s.id

/-- The loop of `get_funding_recommendations` (`src/routes/ai_chat.py` lines
212-249): a recommendation is appended, in source iteration order, exactly for
the available sources whose score is strictly positive. -/
def scored_recommendations (p : Project) (all_sources : List FundingSource) :
    List Recommendation :=
  (available_sources p all_sources).filterMap fun s =>
    if 0 < match_score p s then some ⟨s, match_score p s⟩ else none

/-- The sort key order of `recommendations.sort(key=lambda x: x['match_score'],
reverse=True)`: `a` may precede `b` when `b`'s score is at most `a`'s. -/
def rec_ge (a b : Recommendation) : Prop := b.match_score ≤ a.match_score

instance : DecidableRel rec_ge := fun a b => Nat.decLe b.match_score a.match_score

instance : IsTotal Recommendation rec_ge :=
  ⟨fun a b => Nat.le_total b.match_score a.match_score⟩

instance : IsTrans Recommendation rec_ge :=
  ⟨fun _ _ _ h h' => Nat.le_trans h' h⟩

/-- `recommendations.sort(key=..., reverse=True)` (`src/routes/ai_chat.py` line
252): Python's sort is stable; any stable sort by descending score computes the
same list, embedded here as stable insertion sort. -/
def sort_recommendations (l : List Recommendation) : List Recommendation :=
  l.insertionSort rec_ge

/-- `get_funding_recommendations` result list: the sorted recommendations
truncated to `recommendations[:5]` (`src/routes/ai_chat.py` line 258). -/
def get_funding_recommendations (p : Project) (all_sources : List FundingSource) :
    List Recommendation :=
  (sort_recommendations (scored_recommendations p all_sources)).take 5

/-! ### SharePoint provisioning (`src/services/sharepoint_service.py`,
`src/routes/sharepoint.py`) -/

/-- Outcome of one readiness poll `get_sharepoint_site` (a Graph GET): a 2xx
response carrying the site (its webUrl), or an `HTTPError` with its status
code; 404 is the "not provisioned yet" case. -/
inductive PollResult where
  | ready (webUrl : String)
  | httpError (code : Nat)
deriving DecidableEq, Repr

/-- The `while datetime.now() < end_time` loop of `wait_for_sharepoint_site`
(`src/services/sharepoint_service.py` lines 125-140).  Time is modelled by the
seconds the loop has slept: each 404 costs one `time.sleep(30)`; `budget` is
the wait budget in seconds.  `poll k` is the outcome of the `k`-th poll.
A non-404 `HTTPError` is re-raised (`Except.error code`); running out the
budget returns `None` (`Except.ok none`). -/
def poll_loop (poll : Nat → PollResult) (budget elapsed k : Nat) :
    Except Nat (Option String) :=
  if _hlt : elapsed < budget then
    match poll k with
    | .ready url => .ok (some url)
    | .httpError code =>
      if code = 404 then poll_loop poll budget (elapsed + 30) (k + 1)
      else .error code
  else .ok none
termination_by budget - elapsed
decreasing_by omega

/-- `wait_for_sharepoint_site(group_id, max_wait_minutes=10)`
(`src/services/sharepoint_service.py` lines 114-140). -/
def wait_for_sharepoint_site (poll : Nat → PollResult)
    (max_wait_minutes : Nat := 10) : Except Nat (Option String) :=
  poll_loop poll (max_wait_minutes * 60) 0 0

/-- `mail_nickname = ''.join(c.lower() for c in project_name if c.isalnum())[:64]`
(`src/services/sharepoint_service.py` line 85). -/
def mail_nickname (project_name : String) : String :=
  String.mk (((project_name.data.filter Char.isAlphanum).map Char.toLower).take 64)

/-- The 8 fixed top-level folders (`src/services/sharepoint_service.py` lines
236-245). -/
def base_folders : List String :=
  ["01 - Project Planning",
    "02 - Financial Documents",
    "03 - Legal & Compliance",
    "04 - Construction Documents",
    "05 - Marketing & Leasing",
    "06 - Environmental Reports",
    "07 - Permits & Approvals",
    "08 - Team Communications"]

/-- Python's `f-string` two-digit formatting `f-string 02d` for the folder
numbers in use (all ≥ 9). -/
def two_digit (i : Nat) : String :=
  if i < 10 then "0" ++ toString i else toString i

/-- One funding-source folder name, `f-string: NN - SOURCE Application`
(`src/services/sharepoint_service.py` line 249). -/
def funding_folder (i : Nat) (source : String) : String :=
  two_digit i ++ " - " ++ source ++ " Application"

/-- `get_default_folder_structure(funding_sources)`
(`src/services/sharepoint_service.py` lines 226-251): the 8 base folders plus
one numbered folder per element of `funding_sources`, numbered by
`enumerate(funding_sources, 9)` (the `if funding_sources:` truthiness guard is
a no-op for the empty list). -/
def get_default_folder_structure (funding_sources : List String) : List String :=
  base_folders ++ (List.enumFrom 9 funding_sources).map fun q => funding_folder q.1 q.2

/-- The funding-source names the route passes to the service:
`[app.funding_source.name for app in project.applications if app.funding_source]`
(`src/routes/sharepoint.py` line 49) — one occurrence per application, no
deduplication.  `sources` is the funding-sources table resolving the FK. -/
def project_funding_source_names (p : Project) (sources : List FundingSource) :
    List String :=
  p.applications.filterMap fun a =>
    (sources.find? fun s => s.id = a.funding_source_id).map FundingSource.name

/-- The folder taxonomy derived during site provisioning for a project
(`src/routes/sharepoint.py` lines 48-57 feeding
`src/services/sharepoint_service.py` lines 226-251). -/
def provisioning_folder_structure (p : Project) (sources : List FundingSource) :
    List String :=
  get_default_folder_structure (project_funding_source_names p sources)

/-- The behaviour of the external Graph API during one create-site request:
the result of the group-creation POST (`none` = HTTPError), the poll outcomes,
the tenant name for the derived email, and per-folder creation success. -/
structure ExternalEnv where
  group_create : Option String
  poll : Nat → PollResult
  tenant : String
  folder_ok : String → Bool

/-- Result dictionary of `create_complete_project_site`
(`src/services/sharepoint_service.py` lines 281-288). -/
structure SiteResult where
  group_id : String
  mail_nickname : String
  sharepoint_site_url : String
  sharepoint_email : String
  created_folders : List String
deriving DecidableEq, Repr

/-- `create_complete_project_site` (`src/services/sharepoint_service.py` lines
253-288): create the group, wait for the site (propagating a non-404 poll
error, raising `"SharePoint site provisioning timed out"` when the wait
returns `None`), then create the folder structure best-effort. -/
def create_complete_project_site (env : ExternalEnv) (project_name : String)
    (funding_sources : List String) : Except String SiteResult :=
  match env.group_create with
  | none => .error "group creation failed"
  | some gid =>
    match wait_for_sharepoint_site env.poll with
    | .error code => .error ("HTTP error " ++ toString code)
    | .ok none => .error "SharePoint site provisioning timed out"
    | .ok (some url) =>
      .ok { group_id := gid
            mail_nickname := mail_nickname project_name
            sharepoint_site_url := url
            sharepoint_email :=
              mail_nickname project_name ++ "@" ++ env.tenant ++ ".onmicrosoft.com"
            created_folders :=
              (get_default_folder_structure funding_sources).filter env.folder_ok }

/-- Response of `POST /api/sharepoint/projects/<id>/create-site`. -/
inductive CreateSiteResponse where
  | failure (error : String) (code : Nat)
  | ok (site_url : String) (folders_created : Nat)
deriving DecidableEq, Repr

/-- Observable outcome of one create-site request: the HTTP response, the
project row after commit/rollback, and how many group-creation calls went out
to the external API. -/
structure CreateSiteOutcome where
  response : CreateSiteResponse
  project : Project
  group_create_calls : Nat
deriving Repr

/-- `create_project_sharepoint_site` (`src/routes/sharepoint.py` lines 13-83):
the existing-site guard (lines 20-26) answers 400 before any request data is
read or any external call is made; then the `owner_user_id` and Azure
credential guards; then the service workflow, whose failure rolls the session
back (project unchanged) and whose success persists url, email and group id. -/
def create_project_sharepoint_site (env : ExternalEnv) (azure_configured : Bool)
    (p : Project) (sources : List FundingSource) (owner_user_id : Option String) :
    CreateSiteOutcome :=
  if truthyStr p.sharepoint_site_url then
    ⟨.failure "SharePoint site already exists for this project" 400, p, 0⟩
  else if !truthyStr owner_user_id then
    ⟨.failure "owner_user_id is required" 400, p, 0⟩
  else if !azure_configured then
    ⟨.failure "Azure credentials not configured" 500, p, 0⟩
  else
    match create_complete_project_site env p.name
        (project_funding_source_names p sources) with
    | .error e => ⟨.failure ("Failed to create SharePoint site: " ++ e) 500, p, 1⟩
    | .ok r =>
      ⟨.ok r.sharepoint_site_url r.created_folders.length,
        { p with
          sharepoint_site_url := some r.sharepoint_site_url
          sharepoint_email := some r.sharepoint_email
          sharepoint_group_id := some r.group_id },
        1⟩

/-! ### Helper lemmas on list sums -/

theorem sum_map_sub {α : Type} (f g : α → ℚ) (l : List α) :
    (l.map f).sum - (l.map g).sum = (l.map fun x => f x - g x).sum := by
  induction l with
  | nil => simp
  | cons x xs ih => simp [List.sum_cons, ← ih]; ring

/-! ### Lemmas on the stable descending sort -/

theorem filter_orderedInsert_score (x : Recommendation) (l : List Recommendation)
    (s : Nat) :
    (List.orderedInsert rec_ge x l).filter (fun r => r.match_score = s) =
      if x.match_score = s then
        x :: l.filter (fun r => r.match_score = s)
      else l.filter (fun r => r.match_score = s) := by
  induction l with
  | nil =>
    by_cases hx : x.match_score = s <;> simp [List.orderedInsert, hx]
  | cons b t ih =>
    rw [List.orderedInsert]
    by_cases hbx : rec_ge x b
    · rw [if_pos hbx]
      by_cases hx : x.match_score = s <;> simp [List.filter_cons, hx]
    · rw [if_neg hbx]
      have hlt : x.match_score < b.match_score := Nat.lt_of_not_le hbx
      by_cases hb : b.match_score = s
      · have hx : ¬x.match_score = s := by omega
        simp [List.filter_cons, hb, hx, ih]
      · by_cases hx : x.match_score = s <;> simp [List.filter_cons, hb, hx, ih]

theorem filter_sort_recommendations_score (l : List Recommendation) (s : Nat) :
    (sort_recommendations l).filter (fun r => r.match_score = s) =
      l.filter (fun r => r.match_score = s) := by
  induction l with
  | nil => rfl
  | cons x t ih =>
    show (List.orderedInsert rec_ge x (List.insertionSort rec_ge t)).filter _ = _
    rw [filter_orderedInsert_score]
    by_cases hx : x.match_score = s <;>
      simp [List.filter_cons, hx, show (List.insertionSort rec_ge t).filter
        (fun r => r.match_score = s) = t.filter (fun r => r.match_score = s) from ih]

theorem sort_recommendations_perm (l : List Recommendation) :
    (sort_recommendations l).Perm l :=
  List.perm_insertionSort rec_ge l

theorem sort_recommendations_sorted (l : List Recommendation) :
    (sort_recommendations l).Pairwise rec_ge :=
  List.sorted_insertionSort rec_ge l

theorem mem_scored_recommendations {p : Project} {all_sources : List FundingSource}
    {r : Recommendation} :
    r ∈ scored_recommendations p all_sources ↔
      r.source ∈ available_sources p all_sources ∧
        r.match_score = match_score p r.source ∧ 0 < match_score p r.source := by
  constructor
  · intro hr
    simp only [scored_recommendations, List.mem_filterMap] at hr
    obtain ⟨s, hs, heq⟩ := hr
    split at heq
    · cases heq
      exact ⟨hs, rfl, by assumption⟩
    · exact absurd heq (by simp)
  · rintro ⟨hs, hscore, hpos⟩
    simp only [scored_recommendations, List.mem_filterMap]
    refine ⟨r.source, hs, ?_⟩
    rw [if_pos hpos, ← hscore]

/-! ### C1: funding gap -/

/-- Claim C1: for every project, the `funding_gap` reported by the
project-list and project-detail endpoints equals (`total_cost` if set, else 0)
minus the sum over the project's applications of (`awarded_amount` if set,
else 0); when `total_cost` is unset the gap is the negation of the total
awarded (so it may be negative), and the dashboard's total funding gap is the
sum of the per-project gaps. -/
theorem claim1_funding_gap :
    (∀ p : Project,
      get_projects_funding_gap p =
        p.total_cost.getD 0 - (p.applications.map fun a => a.awarded_amount.getD 0).sum ∧
      get_project_funding_gap p = get_projects_funding_gap p ∧
      (p.total_cost = none →
        get_projects_funding_gap p =
          -(p.applications.map fun a => a.awarded_amount.getD 0).sum)) ∧
    ∀ ps : List Project, dashboard_total_gap ps = (ps.map get_projects_funding_gap).sum := by
  constructor
  · intro p
    refine ⟨rfl, rfl, fun h => ?_⟩
    have hta : total_awarded p =
        (p.applications.map fun a => a.awarded_amount.getD 0).sum := rfl
    simp [get_projects_funding_gap, h, hta]
  · intro ps
    simp only [dashboard_total_gap, dashboard_total_cost, dashboard_total_secured,
      get_projects_funding_gap, total_awarded, appAwarded]
    exact sum_map_sub _ _ ps

/-- Witness for C1 at a concrete project with unset total cost and one
application awarded 40. -/
theorem claim1_funding_gap_witness :
    (Project.mk 1 "P" none none none none none none none
        [Application.mk 1 1 1 ApplicationStatus.approved none (some 40)]).total_cost
        = none ∧
    get_projects_funding_gap
        (Project.mk 1 "P" none none none none none none none
          [Application.mk 1 1 1 ApplicationStatus.approved none (some 40)]) =
      -(((Project.mk 1 "P" none none none none none none none
          [Application.mk 1 1 1 ApplicationStatus.approved none (some 40)]).applications.map
            fun a => a.awarded_amount.getD 0).sum) :=
  ⟨rfl, (claim1_funding_gap.1 _).2.2 rfl⟩

/-! ### C2: funding recommendations -/

/-- Claim C2: the funding-recommendations operation keeps exactly the active,
not-yet-applied sources whose additive rule-table score is strictly positive,
sorts them by descending score with a stable sort (ties keep source iteration
order), truncates to 5, and the score is the sum of the four independent
rules; in particular a project with 25 units, population "Family" and no
applications gives an LIHTC-9% source a score ≥ 30 and an FHLB-AHP source a
score ≥ 25. -/
theorem claim2_funding_recommendations :
    (∀ (p : Project) (all_sources : List FundingSource),
      get_funding_recommendations p all_sources =
        (sort_recommendations (scored_recommendations p all_sources)).take 5 ∧
      (get_funding_recommendations p all_sources).length ≤ 5 ∧
      (sort_recommendations (scored_recommendations p all_sources)).Perm
        (scored_recommendations p all_sources) ∧
      (get_funding_recommendations p all_sources).Pairwise
        (fun a b => b.match_score ≤ a.match_score) ∧
      (∀ s : Nat,
        (sort_recommendations (scored_recommendations p all_sources)).filter
            (fun r => r.match_score = s) =
          (scored_recommendations p all_sources).filter
            (fun r => r.match_score = s)) ∧
      (∀ r ∈ scored_recommendations p all_sources,
        r.match_score = match_score p r.source ∧ 0 < r.match_score ∧
          r.source ∈ all_sources ∧ r.source.is_active = true ∧
          r.source.id ∉ applied_source_ids p) ∧
      (∀ s ∈ all_sources, s.is_active = true → s.id ∉ applied_source_ids p →
        0 < match_score p s →
        Recommendation.mk s (match_score p s) ∈ scored_recommendations p all_sources) ∧
      ∀ s : FundingSource, match_score p s = (rule_scores p s).sum) ∧
    ∀ (p : Project) (s : FundingSource),
      p.total_units = some 25 → p.population_type = some "Family" →
      p.applications = [] →
      (s.type = FundingSourceType.LIHTC_9_PERCENT → 30 ≤ match_score p s) ∧
      (s.type = FundingSourceType.FHLB_AHP → 25 ≤ match_score p s) := by
  constructor
  · intro p all_sources
    refine ⟨rfl, ?_, sort_recommendations_perm _, ?_, fun s => filter_sort_recommendations_score _ s, ?_, ?_, ?_⟩
    · exact List.length_take_le 5 _
    · exact (sort_recommendations_sorted _).sublist (List.take_sublist 5 _)
    · intro r hr
      obtain ⟨hs, hscore, hpos⟩ := mem_scored_recommendations.mp hr
      simp only [available_sources, List.mem_filter] at hs
      obtain ⟨⟨hmem, hact⟩, hnot⟩ := hs
      refine ⟨hscore, hscore ▸ hpos, hmem, hact, ?_⟩
      simpa using hnot
    · intro s hmem hact hnot hpos
      refine mem_scored_recommendations.mpr ⟨?_, rfl, hpos⟩
      simp only [available_sources, List.mem_filter]
      exact ⟨⟨hmem, hact⟩, by simpa using hnot⟩
    · intro s
      simp only [match_score, rule_scores, List.sum_cons, List.sum_nil]
      ring
  · intro p s hu hf ha
    constructor
    · intro hty
      have h1 : rule_unit_count p s = true := by
        simp [rule_unit_count, hty, hu, truthyInt]
      simp only [match_score, h1, if_true]
      omega
    · intro hty
      have h2 : rule_population p s = true := by
        simp [rule_population, hty, hf]
      simp only [match_score, h2, if_true]
      omega

/-- Witness for C2's universal parts at a one-source table, and for the
concrete-instance part at a 25-unit Family project with an LIHTC-9% and an
FHLB-AHP source. -/
theorem claim2_funding_recommendations_witness :
    ((Project.mk 1 "P" none (some "Family") (some 25) none none none none []).total_units
        = some 25) ∧
    (30 ≤ match_score
        (Project.mk 1 "P" none (some "Family") (some 25) none none none none [])
        (FundingSource.mk 1 "State LIHTC" FundingSourceType.LIHTC_9_PERCENT none
          none none true)) ∧
    (25 ≤ match_score
        (Project.mk 1 "P" none (some "Family") (some 25) none none none none [])
        (FundingSource.mk 2 "FHLB Fund" FundingSourceType.FHLB_AHP none
          none none true)) ∧
    (get_funding_recommendations
        (Project.mk 1 "P" none (some "Family") (some 25) none none none none [])
        [FundingSource.mk 1 "State LIHTC" FundingSourceType.LIHTC_9_PERCENT none
          none none true]).length ≤ 5 :=
  ⟨rfl,
    (claim2_funding_recommendations.2
      (Project.mk 1 "P" none (some "Family") (some 25) none none none none [])
      (FundingSource.mk 1 "State LIHTC" FundingSourceType.LIHTC_9_PERCENT none
        none none true) rfl rfl rfl).1 rfl,
    (claim2_funding_recommendations.2
      (Project.mk 1 "P" none (some "Family") (some 25) none none none none [])
      (FundingSource.mk 2 "FHLB Fund" FundingSourceType.FHLB_AHP none
        none none true) rfl rfl rfl).2 rfl,
    ((claim2_funding_recommendations.1
      (Project.mk 1 "P" none (some "Family") (some 25) none none none none [])
      [FundingSource.mk 1 "State LIHTC" FundingSourceType.LIHTC_9_PERCENT none
        none none true]).2.1)⟩

/-! ### C8: success rate -/

/-- Claim C8: the application dashboard statistics compute
`success_rate = approved / total * 100` when there are applications, and `0`
when there are none, so the division-by-zero case is never taken. -/
theorem claim8_success_rate :
    (∀ apps : List Application,
      total_applications_count apps = 0 → success_rate apps = 0) ∧
    ∀ apps : List Application,
      0 < total_applications_count apps →
      success_rate apps =
        (approved_applications apps : ℚ) / (total_applications_count apps : ℚ) * 100 := by
  constructor
  · intro apps h
    simp [success_rate, h]
  · intro apps h
    simp [success_rate, h]

/-- Witness for C8 at the empty application table and at a singleton. -/
theorem claim8_success_rate_witness :
    total_applications_count ([] : List Application) = 0 ∧
    success_rate ([] : List Application) = 0 :=
  ⟨rfl, claim8_success_rate.1 [] rfl⟩

/-! ### C3: total invoiced amount -/

/-- Counterexample to C3 as stated: an entry that is invoiced but not billable
contributes its amount to `total_invoiced_amount`, while the claim says it
contributes nothing. -/
theorem claim3_counterexample :
    total_invoiced_amount
        [TimeEntry.mk 1 none "u" "work" 1 100 "2024-01-01" false true] = 100 ∧
    (([TimeEntry.mk 1 none "u" "work" 1 100 "2024-01-01" false true].filter
        fun e => e.is_billable && e.is_invoiced).map entry_amount).sum = 0 := by
  constructor
  · simp [total_invoiced_amount, entry_amount]
  · simp

/-- Amended C3: `total_invoiced_amount` equals the sum of hours × hourly_rate
over exactly the entries that are invoiced, whether or not they are billable. -/
theorem claim3_amended :
    ∀ entries : List TimeEntry,
      total_invoiced_amount entries =
        (entries.map fun e => if e.is_invoiced then e.hours * e.hourly_rate else 0).sum := by
  intro entries
  induction entries with
  | nil => rfl
  | cons e es ih =>
    by_cases h : e.is_invoiced
    · simp only [total_invoiced_amount, List.filter_cons, h, if_pos, List.map_cons,
        List.sum_cons, entry_amount, if_true]
      simp only [total_invoiced_amount, entry_amount] at ih
      rw [ih]
    · simp only [total_invoiced_amount, List.filter_cons, h, List.map_cons,
        List.sum_cons, if_false, Bool.false_eq_true, ite_false]
      simp only [total_invoiced_amount, entry_amount] at ih
      rw [ih]
      simp

/-! ### C7 and C10: mark-invoiced -/

/-- Claim C7: for a non-empty id list, mark-invoiced sets `is_invoiced` on
exactly the stored entries whose id appears in the list, in one bulk update,
returns the matched-row count, silently ignores unknown ids, and in particular
ids `[1,2,999]` against entries `1` and `2` update 2 rows and return count 2. -/
theorem claim7_mark_invoiced :
    (∀ (db : List TimeEntry) (ids : List Nat), ids ≠ [] →
      mark_entries_invoiced db ids =
        (MarkInvoicedResult.ok (db.filter fun e => e.id ∈ ids).length,
          db.map (set_invoiced ids)) ∧
      (∀ e ∈ db, e.id ∈ ids →
        { e with is_invoiced := true } ∈ (mark_entries_invoiced db ids).2) ∧
      (∀ e ∈ db, e.id ∉ ids → e ∈ (mark_entries_invoiced db ids).2) ∧
      (mark_entries_invoiced db ids).2.length = db.length) ∧
    mark_entries_invoiced
        [TimeEntry.mk 1 none "u" "a" 2 125 "2024-01-01" true false,
          TimeEntry.mk 2 none "u" "b" 3 125 "2024-01-02" true false]
        [1, 2, 999] =
      (MarkInvoicedResult.ok 2,
        [TimeEntry.mk 1 none "u" "a" 2 125 "2024-01-01" true true,
          TimeEntry.mk 2 none "u" "b" 3 125 "2024-01-02" true true]) := by
  constructor
  · intro db ids hne
    have hemp : ids.isEmpty = false := by
      cases ids with
      | nil => exact absurd rfl hne
      | cons a t => rfl
    have hmain : mark_entries_invoiced db ids =
        (MarkInvoicedResult.ok (db.filter fun e => e.id ∈ ids).length,
          db.map (set_invoiced ids)) := by
      simp [mark_entries_invoiced, hemp]
    refine ⟨hmain, ?_, ?_, ?_⟩
    · intro e he hid
      rw [hmain]
      have : set_invoiced ids e = { e with is_invoiced := true } := by
        simp [set_invoiced, hid]
      exact this ▸ List.mem_map_of_mem _ he
    · intro e he hid
      rw [hmain]
      have : set_invoiced ids e = e := by
        simp [set_invoiced, hid]
      exact this ▸ List.mem_map_of_mem _ he
    · rw [hmain]
      simp
  · decide

/-- Witness for C7 at the concrete two-entry store and id list `[1,2,999]`. -/
theorem claim7_mark_invoiced_witness :
    ([1, 2, 999] : List Nat) ≠ [] ∧
    (mark_entries_invoiced
        [TimeEntry.mk 1 none "u" "a" 2 125 "2024-01-01" true false,
          TimeEntry.mk 2 none "u" "b" 3 125 "2024-01-02" true false]
        [1, 2, 999]).2.length = 2 :=
  ⟨by decide,
    by
      have h :=
        (claim7_mark_invoiced.1
          [TimeEntry.mk 1 none "u" "a" 2 125 "2024-01-01" true false,
            TimeEntry.mk 2 none "u" "b" 3 125 "2024-01-02" true false]
          [1, 2, 999] (by decide)).2.2.2
      simpa using h⟩

/-- Claim C10: a mark-invoiced request whose `entry_ids` list is empty (or
absent, which defaults to the empty list) is rejected with the validation
error and leaves the store unchanged; it never yields a success envelope. -/
theorem claim10_mark_invoiced_empty :
    ∀ db : List TimeEntry,
      mark_entries_invoiced db [] =
        (MarkInvoicedResult.failure "Entry IDs are required" 400, db) ∧
      ∀ c db', mark_entries_invoiced db [] ≠ (MarkInvoicedResult.ok c, db') := by
  intro db
  refine ⟨rfl, fun c db' h => ?_⟩
  simp [mark_entries_invoiced] at h

/-- Witness for C10 at a concrete one-entry store. -/
theorem claim10_mark_invoiced_empty_witness :
    mark_entries_invoiced
        [TimeEntry.mk 1 none "u" "a" 2 125 "2024-01-01" true false] [] =
      (MarkInvoicedResult.failure "Entry IDs are required" 400,
        [TimeEntry.mk 1 none "u" "a" 2 125 "2024-01-01" true false]) :=
  (claim10_mark_invoiced_empty
    [TimeEntry.mk 1 none "u" "a" 2 125 "2024-01-01" true false]).1

/-! ### C9: hours validation -/

/-- Counterexample to C9 as stated: a create request with `hours = -1` passes
every guard (only Python-falsy hours are rejected) and produces a stored entry
with `hours = -1 ≤ 0`. -/
theorem claim9_counterexample :
    create_time_entry [] 1
        (CreateTimeEntryRequest.mk none (some "alice") (some "work") (some (-1))
          none (some "2024-01-01") none none) =
      WriteResult.created
        (TimeEntry.mk 1 none "alice" "work" (-1) 125 "2024-01-01" true false) ∧
    ((-1 : ℚ) ≤ 0) := by
  constructor
  · decide
  · norm_num

/-- Amended C9: the create operation rejects exactly the requests whose
`hours` field is Python-falsy (absent or zero) once the earlier required-field
guards pass, and otherwise stores the requested hours unchanged — negative
values included; the update operation never validates hours (its only
failures are 404s and on success it stores the requested value unchanged), so
the `hours > 0` invariant is not enforced. -/
theorem claim9_amended :
    (∀ (pids : List Nat) (nid : Nat) (data : CreateTimeEntryRequest),
      truthyStr data.user_name = true → truthyStr data.description = true →
      truthyNum data.hours = false →
      create_time_entry pids nid data = .failure "Hours is required" 400) ∧
    (∀ (pids : List Nat) (nid : Nat) (data : CreateTimeEntryRequest) (e : TimeEntry),
      create_time_entry pids nid data = .created e → e.hours = data.hours.getD 0) ∧
    (∀ (pids : List Nat) (nid : Nat) (data : CreateTimeEntryRequest) (q : ℚ),
      data.hours = some q → q ≠ 0 →
      truthyStr data.user_name = true → truthyStr data.description = true →
      truthyStr data.date = true → truthyId data.project_id = false →
      ∃ e : TimeEntry, create_time_entry pids nid data = .created e ∧ e.hours = q) ∧
    (∀ (db : List TimeEntry) (pids : List Nat) (eid : Nat)
      (data : UpdateTimeEntryRequest) (msg : String) (code : Nat),
      update_time_entry db pids eid data = .failure msg code → code = 404) ∧
    (∀ (db : List TimeEntry) (pids : List Nat) (eid : Nat)
      (data : UpdateTimeEntryRequest) (e0 e' : TimeEntry),
      (db.find? fun e => e.id = eid) = some e0 →
      update_time_entry db pids eid data = .created e' →
      e'.hours = data.hours.getD e0.hours) := by
  refine ⟨?_, ?_, ?_, ?_, ?_⟩
  · intro pids nid data hu hd hh
    simp [create_time_entry, hu, hd, hh]
  · intro pids nid data e h
    simp only [create_time_entry] at h
    split at h
    · exact absurd h (by simp)
    · split at h
      · exact absurd h (by simp)
      · split at h
        · exact absurd h (by simp)
        · split at h
          · exact absurd h (by simp)
          · split at h
            · exact absurd h (by simp)
            · cases h
              rfl
  · intro pids nid data q hq hq0 hu hd hdate hpid
    refine ⟨TimeEntry.mk nid data.project_id (data.user_name.getD "")
      (data.description.getD "") q (data.hourly_rate.getD 125) (data.date.getD "")
      (data.is_billable.getD true) (data.is_invoiced.getD false), ?_, rfl⟩
    simp [create_time_entry, hu, hd, hdate, hpid, hq, truthyNum, hq0]
  · intro db pids eid data msg code h
    simp only [update_time_entry] at h
    split at h
    · cases h; rfl
    · split at h
      · split at h
        · cases h; rfl
        · exact absurd h (by simp)
      · exact absurd h (by simp)
  · intro db pids eid data e0 e' hfind h
    simp only [update_time_entry, hfind] at h
    split at h
    · split at h
      · exact absurd h (by simp)
      · cases h
        rfl
    · cases h
      rfl

/-- Witness for amended C9: at a concrete request, create with hours `0` is
rejected, create with hours `-1` succeeds, and update stores hours `-2`. -/
theorem claim9_amended_witness :
    create_time_entry [] 1
        (CreateTimeEntryRequest.mk none (some "alice") (some "work") (some 0)
          none (some "2024-01-01") none none) = .failure "Hours is required" 400 ∧
    (∃ e : TimeEntry,
      create_time_entry [] 1
          (CreateTimeEntryRequest.mk none (some "alice") (some "work") (some (-1))
            none (some "2024-01-01") none none) = .created e ∧ e.hours = -1) ∧
    ∀ e' : TimeEntry,
      update_time_entry [TimeEntry.mk 7 none "u" "d" 5 125 "2024-01-01" true false]
          [] 7
          (UpdateTimeEntryRequest.mk none none none (some (-2)) none none none none) =
        .created e' →
      e'.hours = -2 :=
  ⟨claim9_amended.1 [] 1 _ (by decide) (by decide) (by decide),
    claim9_amended.2.2.1 [] 1 _ (-1) rfl (by norm_num) (by decide) (by decide)
      (by decide) (by decide),
    fun e' h => by
      have := claim9_amended.2.2.2.2
        [TimeEntry.mk 7 none "u" "d" 5 125 "2024-01-01" true false] [] 7
        (UpdateTimeEntryRequest.mk none none none (some (-2)) none none none none)
        (TimeEntry.mk 7 none "u" "d" 5 125 "2024-01-01" true false) e' (by decide) h
      simpa using this⟩

/-! ### C4: create-site idempotency guard -/

/-- Claim C4: a create-site request against a project that already stores a
SharePoint site URL is rejected with the existing-site error; the project row
(URL, email, group id) is unchanged and no group-creation call reaches the
external API. -/
theorem claim4_create_site_guard :
    ∀ (env : ExternalEnv) (configured : Bool) (p : Project)
      (sources : List FundingSource) (owner : Option String),
      truthyStr p.sharepoint_site_url = true →
      create_project_sharepoint_site env configured p sources owner =
        CreateSiteOutcome.mk
          (CreateSiteResponse.failure "SharePoint site already exists for this project" 400)
          p 0 ∧
      Project.sharepoint_site_url
          (create_project_sharepoint_site env configured p sources owner).project =
        p.sharepoint_site_url ∧
      Project.sharepoint_email
          (create_project_sharepoint_site env configured p sources owner).project =
        p.sharepoint_email ∧
      Project.sharepoint_group_id
          (create_project_sharepoint_site env configured p sources owner).project =
        p.sharepoint_group_id ∧
      CreateSiteOutcome.group_create_calls
          (create_project_sharepoint_site env configured p sources owner) = 0 := by
  intro env configured p sources owner h
  have hmain : create_project_sharepoint_site env configured p sources owner =
      CreateSiteOutcome.mk
        (CreateSiteResponse.failure "SharePoint site already exists for this project" 400)
        p 0 := by
    simp [create_project_sharepoint_site, h]
  exact ⟨hmain, by rw [hmain], by rw [hmain], by rw [hmain], by rw [hmain]⟩

/-- Witness for C4 at a project whose stored site URL is nonempty. -/
theorem claim4_create_site_guard_witness :
    truthyStr (Project.mk 1 "P" none none none none (some "https://sp/site") none
        none []).sharepoint_site_url = true ∧
    create_project_sharepoint_site
        (ExternalEnv.mk (some "gid") (fun _ => PollResult.httpError 404) "contoso"
          (fun _ => true))
        true
        (Project.mk 1 "P" none none none none (some "https://sp/site") none none [])
        [] (some "owner") =
      CreateSiteOutcome.mk
        (CreateSiteResponse.failure "SharePoint site already exists for this project" 400)
        (Project.mk 1 "P" none none none none (some "https://sp/site") none none [])
        0 :=
  ⟨rfl,
    (claim4_create_site_guard
      (ExternalEnv.mk (some "gid") (fun _ => PollResult.httpError 404) "contoso"
        (fun _ => true))
      true
      (Project.mk 1 "P" none none none none (some "https://sp/site") none none [])
      [] (some "owner") rfl).1⟩

/-! ### C5: provisioning poll termination -/

theorem poll_loop_all404 (poll : Nat → PollResult)
    (h : ∀ n, poll n = PollResult.httpError 404) :
    ∀ (fuel budget elapsed k : Nat), budget - elapsed ≤ fuel →
      poll_loop poll budget elapsed k = .ok none := by
  intro fuel
  induction fuel with
  | zero =>
    intro budget elapsed k hle
    have hnlt : ¬elapsed < budget := by omega
    rw [poll_loop]
    simp [hnlt]
  | succ n ih =>
    intro budget elapsed k hle
    rw [poll_loop]
    by_cases hlt : elapsed < budget
    · simp only [dif_pos hlt, h k, if_pos]
      exact ih budget (elapsed + 30) (k + 1) (by omega)
    · simp [hlt]

theorem poll_loop_agree (poll poll' : Nat → PollResult)
    (h : ∀ n, n < 20 → poll n = poll' n) :
    ∀ (fuel k elapsed : Nat), elapsed = 30 * k → 600 - elapsed ≤ fuel →
      poll_loop poll 600 elapsed k = poll_loop poll' 600 elapsed k := by
  intro fuel
  induction fuel with
  | zero =>
    intro k elapsed hk hle
    have hnlt : ¬elapsed < 600 := by omega
    have h1 : poll_loop poll 600 elapsed k = .ok none := by
      rw [poll_loop]; simp [hnlt]
    have h2 : poll_loop poll' 600 elapsed k = .ok none := by
      rw [poll_loop]; simp [hnlt]
    rw [h1, h2]
  | succ n ih =>
    intro k elapsed hk hle
    by_cases hlt : elapsed < 600
    · have hk20 : k < 20 := by omega
      cases hpk : poll' k with
      | ready url =>
        have h1 : poll_loop poll 600 elapsed k = .ok (some url) := by
          rw [poll_loop]; simp [hlt, h k hk20, hpk]
        have h2 : poll_loop poll' 600 elapsed k = .ok (some url) := by
          rw [poll_loop]; simp [hlt, hpk]
        rw [h1, h2]
      | httpError code =>
        by_cases hc : code = 404
        · subst hc
          have h1 : poll_loop poll 600 elapsed k =
              poll_loop poll 600 (elapsed + 30) (k + 1) := by
            rw [poll_loop]; simp [hlt, h k hk20, hpk]
          have h2 : poll_loop poll' 600 elapsed k =
              poll_loop poll' 600 (elapsed + 30) (k + 1) := by
            rw [poll_loop]; simp [hlt, hpk]
          rw [h1, h2]
          exact ih (k + 1) (elapsed + 30) (by omega) (by omega)
        · have h1 : poll_loop poll 600 elapsed k = .error code := by
            rw [poll_loop]; simp [hlt, h k hk20, hpk, hc]
          have h2 : poll_loop poll' 600 elapsed k = .error code := by
            rw [poll_loop]; simp [hlt, hpk, hc]
          rw [h1, h2]
    · have h1 : poll_loop poll 600 elapsed k = .ok none := by
        rw [poll_loop]; simp [hlt]
      have h2 : poll_loop poll' 600 elapsed k = .ok none := by
        rw [poll_loop]; simp [hlt]
      rw [h1, h2]

theorem poll_loop_error (poll : Nat → PollResult) (c : Nat) (hc : c ≠ 404) :
    ∀ (j elapsed k : Nat),
      (∀ i, i < j → poll (k + i) = PollResult.httpError 404) →
      poll (k + j) = PollResult.httpError c → elapsed + 30 * j < 600 →
      poll_loop poll 600 elapsed k = .error c := by
  intro j
  induction j with
  | zero =>
    intro elapsed k hprev herr hbud
    have hlt : elapsed < 600 := by omega
    have hk : poll k = PollResult.httpError c := by simpa using herr
    rw [poll_loop]
    simp only [dif_pos hlt, hk]
    rw [if_neg hc]
  | succ j ih =>
    intro elapsed k hprev herr hbud
    have hlt : elapsed < 600 := by omega
    have h0 : poll k = PollResult.httpError 404 := by
      simpa using hprev 0 (Nat.succ_pos j)
    rw [poll_loop]
    simp only [dif_pos hlt, h0, if_pos]
    refine ih (elapsed + 30) (k + 1) ?_ ?_ (by omega)
    · intro i hi
      rw [show k + 1 + i = k + (i + 1) by omega]
      exact hprev (i + 1) (by omega)
    · rw [show k + 1 + j = k + (j + 1) by omega]
      exact herr

/-- Claim C5: if every readiness poll reports 404 the wait loop terminates
with `None` — it inspects at most the first 20 polls (one per 30-second sleep
inside the 600-second budget) — and `create_complete_project_site` then fails
with the timeout error rather than reporting success; a poll failing with any
non-404 status aborts the loop immediately with that error. -/
theorem claim5_poll_timeout :
    (∀ poll : Nat → PollResult, (∀ n, poll n = PollResult.httpError 404) →
      wait_for_sharepoint_site poll = .ok none) ∧
    (∀ (env : ExternalEnv) (gid name : String) (fs : List String),
      env.group_create = some gid →
      (∀ n, env.poll n = PollResult.httpError 404) →
      create_complete_project_site env name fs =
        .error "SharePoint site provisioning timed out") ∧
    (∀ poll poll' : Nat → PollResult, (∀ n, n < 20 → poll n = poll' n) →
      wait_for_sharepoint_site poll = wait_for_sharepoint_site poll') ∧
    ∀ (poll : Nat → PollResult) (j c : Nat), c ≠ 404 →
      (∀ i, i < j → poll i = PollResult.httpError 404) →
      poll j = PollResult.httpError c → 30 * j < 600 →
      wait_for_sharepoint_site poll = .error c := by
  refine ⟨?_, ?_, ?_, ?_⟩
  · intro poll h
    exact poll_loop_all404 poll h 600 600 0 0 (by omega)
  · intro env gid name fs hg hp
    have hw : wait_for_sharepoint_site env.poll = .ok none :=
      poll_loop_all404 env.poll hp 600 600 0 0 (by omega)
    simp [create_complete_project_site, hg, wait_for_sharepoint_site] at hw ⊢
    simp [hw]
  · intro poll poll' h
    exact poll_loop_agree poll poll' h 600 0 0 (by omega) (by omega)
  · intro poll j c hc hprev herr hbud
    exact poll_loop_error poll c hc j 0 0 (by simpa using hprev) (by simpa using herr)
      (by omega)

/-- Witness for C5 at the everywhere-404 poll and a concrete environment. -/
theorem claim5_poll_timeout_witness :
    wait_for_sharepoint_site (fun _ => PollResult.httpError 404) = .ok none ∧
    create_complete_project_site
        (ExternalEnv.mk (some "gid") (fun _ => PollResult.httpError 404) "contoso"
          (fun _ => true)) "Proj" [] =
      .error "SharePoint site provisioning timed out" :=
  ⟨claim5_poll_timeout.1 _ (fun _ => rfl),
    claim5_poll_timeout.2.1
      (ExternalEnv.mk (some "gid") (fun _ => PollResult.httpError 404) "contoso"
        (fun _ => true)) "gid" "Proj" [] rfl (fun _ => rfl)⟩

/-! ### C6: folder taxonomy -/

/-- The taxonomy the spec's words describe: one additional folder per
DISTINCT funding source already applied to by the project. -/
def distinct_folder_structure (p : Project) (sources : List FundingSource) :
    List String :=
  get_default_folder_structure ((project_funding_source_names p sources).dedup)

/-- Counterexample to C6 as stated: a project with two applications to the
same funding source gets two numbered folders for that one distinct source,
so the taxonomy is not one folder per distinct source. -/
theorem claim6_counterexample :
    provisioning_folder_structure
        (Project.mk 1 "P" none none none none none none none
          [Application.mk 1 1 1 ApplicationStatus.submitted none none,
            Application.mk 2 1 1 ApplicationStatus.draft none none])
        [FundingSource.mk 1 "HOME Fund" FundingSourceType.HOME none none none true] =
      base_folders ++ ["09 - HOME Fund Application", "10 - HOME Fund Application"] ∧
    distinct_folder_structure
        (Project.mk 1 "P" none none none none none none none
          [Application.mk 1 1 1 ApplicationStatus.submitted none none,
            Application.mk 2 1 1 ApplicationStatus.draft none none])
        [FundingSource.mk 1 "HOME Fund" FundingSourceType.HOME none none none true] =
      base_folders ++ ["09 - HOME Fund Application"] ∧
    provisioning_folder_structure
        (Project.mk 1 "P" none none none none none none none
          [Application.mk 1 1 1 ApplicationStatus.submitted none none,
            Application.mk 2 1 1 ApplicationStatus.draft none none])
        [FundingSource.mk 1 "HOME Fund" FundingSourceType.HOME none none none true] ≠
      distinct_folder_structure
        (Project.mk 1 "P" none none none none none none none
          [Application.mk 1 1 1 ApplicationStatus.submitted none none,
            Application.mk 2 1 1 ApplicationStatus.draft none none])
        [FundingSource.mk 1 "HOME Fund" FundingSourceType.HOME none none none true] := by
  refine ⟨rfl, rfl, ?_⟩
  decide

/-- Amended C6: the provisioning folder taxonomy is the 8 fixed folders in
their fixed order followed by one folder per application that resolves to a
funding source — one per occurrence, duplicates repeated, not one per
distinct source — numbered consecutively from 9. -/
theorem claim6_amended :
    ∀ (p : Project) (sources : List FundingSource),
      (provisioning_folder_structure p sources).length =
        8 + (project_funding_source_names p sources).length ∧
      (provisioning_folder_structure p sources).take 8 = base_folders ∧
      ∀ i, i < (project_funding_source_names p sources).length →
        (provisioning_folder_structure p sources)[8 + i]? =
          ((project_funding_source_names p sources)[i]?.map
            fun name => funding_folder (9 + i) name) := by
  intro p sources
  refine ⟨?_, ?_, ?_⟩
  · simp [provisioning_folder_structure, get_default_folder_structure, base_folders]
    omega
  · have h8 : base_folders.length = 8 := rfl
    simp only [provisioning_folder_structure, get_default_folder_structure]
    rw [← h8, List.take_left]
  · intro i hi
    simp only [provisioning_folder_structure, get_default_folder_structure]
    rw [List.getElem?_append_right (by simp [base_folders])]
    have h8 : base_folders.length = 8 := rfl
    rw [h8, show 8 + i - 8 = i by omega]
    simp [List.getElem?_map, List.getElem?_enumFrom, Option.map_map]
    rfl

/-- Witness for amended C6 at the duplicate-source project: the folder at
index 8 is the first funding folder, numbered 09. -/
theorem claim6_amended_witness :
    (provisioning_folder_structure
        (Project.mk 1 "P" none none none none none none none
          [Application.mk 1 1 1 ApplicationStatus.submitted none none,
            Application.mk 2 1 1 ApplicationStatus.draft none none])
        [FundingSource.mk 1 "HOME Fund" FundingSourceType.HOME none none none
          true])[8]? = some "09 - HOME Fund Application" := by
  have h :=
    (claim6_amended
      (Project.mk 1 "P" none none none none none none none
        [Application.mk 1 1 1 ApplicationStatus.submitted none none,
          Application.mk 2 1 1 ApplicationStatus.draft none none])
      [FundingSource.mk 1 "HOME Fund" FundingSourceType.HOME none none none
        true]).2.2 0 (by decide)
  simpa using h

end Housing
